import Mathlib

/-!
Shallow embedding of the grusin UI toolkit runtime core
(`src/grusin/__init__.py`): geometry value types, the visibility
tree, the selected-child resolution, the layered render protocol of
`Control`/`ContainerControl`, and the mouse branches of
`UIRuntime.process_events` (motion, button-down, button-up).
Machine integers are modelled as `Int` (Python ints are unbounded).
-/

namespace Grusin

/-- A 2-D point, from `class Point(VecBase)`: two integer fields. -/
structure Point where
  x : Int
  y : Int
deriving Repr, DecidableEq

/-- `class Spacing`: four integer fields. -/
structure Spacing where
  left : Int
  top : Int
  right : Int
  bottom : Int
deriving Repr, DecidableEq

/-- `Spacing.hor`: `self.left + self.right`. -/
def Spacing.hor (s : Spacing) : Int := s.left + s.right

/-- `Spacing.ver`: `self.top + self.bottom`. -/
def Spacing.ver (s : Spacing) : Int := s.top + s.bottom

/-- `class Rectangle`: `_left, _top, _width, _height` integer slots.
`Rectangle.__init__` stores the four arguments as given (`int(...)`
conversion only, no clamping). -/
structure Rectangle where
  left : Int
  top : Int
  width : Int
  height : Int
deriving Repr, DecidableEq

namespace Rectangle

/-- `Rectangle.__init__(left, top, width, height)`: fields stored as given. -/
def init (left top width height : Int) : Rectangle :=
  ⟨left, top, width, height⟩

/-- `Rectangle.right` property: `self._left + self._width`. -/
def right (r : Rectangle) : Int := r.left + r.width

/-- `Rectangle.bottom` property: `self._top + self._height`. -/
def bottom (r : Rectangle) : Int := r.top + r.height

/-- `Rectangle.empty` property: `self._width == 0 or self._height == 0`. -/
def isEmpty (r : Rectangle) : Bool := r.width == 0 || r.height == 0

/-- `Rectangle.width` setter: `self._width = max(0, int(value))`. -/
def setWidth (r : Rectangle) (value : Int) : Rectangle :=
  { r with width := max 0 value }

/-- `Rectangle.height` setter: `self._height = max(0, int(value))`. -/
def setHeight (r : Rectangle) (value : Int) : Rectangle :=
  { r with height := max 0 value }

/-- `Rectangle.intersects(other)`: returns `False` when
`sl > ol + ow or ol > sl + sw or st > ot + oh or ot > st + sh`,
else `True`. -/
def intersects (s o : Rectangle) : Bool :=
  !(decide (s.left > o.left + o.width) || decide (o.left > s.left + s.width) ||
    decide (s.top > o.top + o.height) || decide (o.top > s.top + s.height))

/-- `Rectangle.intersection(other)`: `Rectangle(0, 0, 0, 0)` when the two do
not intersect, else `Rectangle(max(sl, ol), max(st, ot),
min(sl + sw, ol + ow), min(st + sh, ot + oh))` — note that the third and
fourth constructor arguments are the smaller right/bottom edges themselves. -/
def intersection (s o : Rectangle) : Rectangle :=
  if !(s.intersects o) then init 0 0 0 0
  else
    init (max s.left o.left) (max s.top o.top)
      (min (s.left + s.width) (o.left + o.width))
      (min (s.top + s.height) (o.top + o.height))

/-- `Rectangle.expand(spacing)`: `left -= spacing.left; width += spacing.hor;
top -= spacing.top; height += spacing.ver` (the `width`/`height` updates go
through the clamping setters). -/
def expand (r : Rectangle) (s : Spacing) : Rectangle :=
  let r := { r with left := r.left - s.left }
  let r := r.setWidth (r.width + s.hor)
  let r := { r with top := r.top - s.top }
  r.setHeight (r.height + s.ver)

end Rectangle

/-- The geometric overlap of two rectangles, written from the spec's words
("the non-empty overlap region"): left/top are the larger left/top edges and
width/height are the extents up to the smaller right/bottom edges. Used to
compare `Rectangle.intersection` against the specified behaviour. -/
def specOverlapRegion (s o : Rectangle) : Rectangle :=
  { left := max s.left o.left
    top := max s.top o.top
    width := min s.right o.right - max s.left o.left
    height := min s.bottom o.bottom - max s.top o.top }

/-! ## Layered rendering (`Control.process_message` / `ContainerControl.process_message`, RENDER) -/

/-- `RenderLayer` bit values: `BACKGROUND = 1`, `ABOVE_BACKGROUND = 2`,
`BELOW_FOREGROUND = 4`, `FOREGROUND = 8`; a theme entry's layer set is the
bitwise or, modelled as a `Nat` bitmask. -/
abbrev RenderLayerMask := Nat

/-- Errors a render dispatch can raise: `GrUsInRendererError(message)` for
the mutually-exclusive-layers configuration error, and the bare
`RuntimeError()` raised in the container's child loop. -/
inductive RenderErr where
  | rendererError (msg : String)
  | runtimeError
deriving Repr, DecidableEq

/-- The error message built at the raise site:
`"RenderLayer: {cls} rendering must occur only ABOVE_BACKGROUND or BELOW_FOREGROUND."`. -/
def renderLayerErrMsg (cls : String) : String :=
  "RenderLayer: " ++ cls ++ " rendering must occur only ABOVE_BACKGROUND or BELOW_FOREGROUND."

/-- Observable render effects: a `renderer.render(self, ..., layer)` draw
call on the control itself, and a render-stage message dispatched to a child
(stage codes `0x62`/`0x63`/`0x64` for RENDER_BACKGROUND/RENDER/RENDER_FOREGROUND). -/
inductive RenderAct where
  | draw (cls : String) (layer : Nat)
  | childDispatch (childId : Nat) (stage : Nat)
deriving Repr, DecidableEq

/-- `Control.process_message(Message.RENDER, clip_area)`: compute
`invalidated = clip_area.intersection(render_bounds)`; return early when it
is empty; draw ABOVE_BACKGROUND when that bit is set; when the
BELOW_FOREGROUND bit is set, raise `GrUsInRendererError` if an
ABOVE_BACKGROUND draw already happened, else draw BELOW_FOREGROUND. -/
def controlRenderMsg (cls : String) (layer : RenderLayerMask)
    (clipArea renderBounds : Rectangle) : Except RenderErr (List RenderAct) :=
  let invalidated := clipArea.intersection renderBounds
  if invalidated.isEmpty then .ok []
  else
    let aboveActs : List RenderAct :=
      if layer.land 2 == 2 then [.draw cls 2] else []
    let rendered : Bool := layer.land 2 == 2
    if layer.land 4 == 4 then
      if rendered then .error (.rendererError (renderLayerErrMsg cls))
      else .ok (aboveActs ++ [.draw cls 4])
    else .ok aboveActs

/-- The per-child data the container's RENDER child loop reads: the child's
screen bounds (`child.get_bounds()`), its padding, and its effective
`visible` value. -/
structure ChildR where
  id : Nat
  bounds : Rectangle
  padding : Spacing
  visible : Bool
deriving Repr, DecidableEq

/-- The child loop of `ContainerControl.process_message(Message.RENDER, ...)`:
for each child, `child_render_bounds = child.get_bounds().expand(child.padding)`;
when `render_bounds.intersects(child_render_bounds) and child.visible`, the
three render stages are dispatched to the child; otherwise the loop executes
`raise RuntimeError()`. -/
def containerChildLoop (renderBounds : Rectangle) :
    List ChildR → Except RenderErr (List RenderAct)
  | [] => .ok []
  | c :: cs =>
    if renderBounds.intersects (c.bounds.expand c.padding) && c.visible then
      match containerChildLoop renderBounds cs with
      | .error e => .error e
      | .ok rest =>
        .ok ([.childDispatch c.id 0x62, .childDispatch c.id 0x63,
              .childDispatch c.id 0x64] ++ rest)
    else .error .runtimeError

/-- `ContainerControl.process_message(Message.RENDER, clip_area)`: the empty
guard, the ABOVE_BACKGROUND draw, the child loop, then the BELOW_FOREGROUND
stage with the same mutual-exclusion error as the plain control. -/
def containerRenderMsg (cls : String) (layer : RenderLayerMask)
    (clipArea renderBounds : Rectangle) (children : List ChildR) :
    Except RenderErr (List RenderAct) :=
  let invalidated := clipArea.intersection renderBounds
  if invalidated.isEmpty then .ok []
  else
    let aboveActs : List RenderAct :=
      if layer.land 2 == 2 then [.draw cls 2] else []
    let rendered : Bool := layer.land 2 == 2
    match containerChildLoop renderBounds children with
    | .error e => .error e
    | .ok childActs =>
      if layer.land 4 == 4 then
        if rendered then .error (.rendererError (renderLayerErrMsg cls))
        else .ok (aboveActs ++ childActs ++ [.draw cls 4])
      else .ok (aboveActs ++ childActs)

/-! ## UIRuntime mouse-event processing (`UIRuntime.process_events`) -/

/-- The value read out of a `_drag_pos` entry, with Python semantics: a
`Point` entry, a `None` entry, or — when the field holds a single `Point`
after the drag-commit clear — an integer coordinate obtained by indexing
that `Point`. -/
inductive PosArg where
  | pt (p : Point)
  | null
  | intVal (z : Int)
deriving Repr, DecidableEq

/-- The `_drag_pos` field: initially the four-entry list
`[None, Point(0,0), Point(0,0), Point(0,0)]`; the drag-commit branch of
button-up replaces the whole field by `Point(0, 0)`. -/
inductive DragPosField where
  | table (ps : List (Option Point))
  | point (p : Point)
deriving Repr, DecidableEq

/-- Python indexing `self._drag_pos[i]`: list indexing yields the entry
(`none` models the `IndexError` out of range); indexing a `Point` yields the
x/y coordinate for keys 0/1 and raises out of range. -/
def DragPosField.get : DragPosField → Nat → Option PosArg
  | .table ps, i =>
    match ps.get? i with
    | some (some p) => some (.pt p)
    | some none => some .null
    | none => none
  | .point p, i =>
    if i == 0 then some (.intVal p.x)
    else if i == 1 then some (.intVal p.y)
    else none

/-- Python index assignment `self._drag_pos[i] = Point(...)`: in-range list
assignment stores the point; assigning into a `Point`-valued field raises
(`Point.__setitem__` calls `int(value)` on the point, a `TypeError`), as
does an out-of-range index — both modelled as `none`. -/
def DragPosField.set : DragPosField → Nat → Point → Option DragPosField
  | .table ps, i, p =>
    if i < ps.length then some (.table (ps.set i (some p))) else none
  | .point _, _, _ => none

/-- The environment of control responses the runtime queries while handling
an event; controls are numeric ids and each field is the value the control's
`process_message` returns for that query. -/
structure Env where
  hitTest : Nat → Point → Option Nat
  dragAccept : Nat → Nat → Bool
  sendData : Nat → Int
  topmostOf : Nat → Nat
  behavior : Nat → Nat
  selChild : Nat → Option Nat

/-- The notification messages `process_events` sends, in order, with the
receiving control first. -/
inductive MsgCall where
  | mouseEnter (t : Nat)
  | mouseLeave (t : Nat)
  | mouseMove (t : Nat)
  | mouseStartDrag (t : Nat) (button : Nat) (start : PosArg)
  | mouseDragMove (t : Nat) (button : Nat) (start : PosArg) (pos : Point)
  | mouseStopDrag (t : Nat) (button : Nat) (start : PosArg) (pos : Point)
  | dragSendData (t : Nat)
  | dragRecvData (t : Nat) (payload : Int)
  | mouseClick (t : Nat)
  | mouseRelease (t : Nat) (isHovering : Bool)
  | mousePress (t : Nat)
  | selectedMsg (t : Nat)
  | deactivated (t : Nat)
  | activated (t : Nat)
  | focusedMsg (t : Nat)
  | defocusedMsg (t : Nat)
deriving Repr, DecidableEq

/-- `True` exactly for the `DRAG_SENDDATA`/`DRAG_RECVDATA` calls. -/
def isDragDataMsg : MsgCall → Bool
  | .dragSendData _ => true
  | .dragRecvData _ _ => true
  | _ => false

/-- `True` exactly for the `DEACTIVATED`/`ACTIVATED` notifications. -/
def isActivationMsg : MsgCall → Bool
  | .deactivated _ => true
  | .activated _ => true
  | _ => false

/-- The mouse slice of `UIRuntime` state the mouse branches of
`process_events` read and write. -/
structure UIState where
  controls : List Nat
  mbuttons : List Nat
  pressTime : List Int
  releaseTime : List Int
  dragPos : DragPosField
  dragButton : Nat
  dragAccept : Bool
  dragReceiver : Option Nat
  captured : Option Nat
  hovered : Option Nat
  focused : Option Nat
  active : Option Nat
deriving Repr, DecidableEq

/-- The outcome of handling one event: the updated state, the notifications
sent in order, and whether handling aborted with an uncaught Python
exception (`AttributeError`, `IndexError` or `TypeError`). -/
structure StepOut where
  st : UIState
  msgs : List MsgCall
  crashed : Bool
deriving Repr, DecidableEq

/-- `UIRuntime._is_mbutton(index)`:
`index == MB_LEFT or index == MB_RIGHT or index == MB_RIGHT` — the middle
button is absent from the test, as in the source. -/
def isMButton (i : Nat) : Bool := i == 1 || i == 3 || i == 3

/-- The hit-test scan `for control in self._controls: hov, hit = ...` that
keeps the last positive result, started from accumulator `acc`. -/
def hitLoop (env : Env) (controls : List Nat) (pos : Point) (acc : Option Nat) :
    Option Nat :=
  controls.foldl
    (fun a c =>
      match env.hitTest c pos with
      | some hv => some hv
      | none => a) acc

/-- Python truthiness of `abs(bool)`: the bool converts to `1`/`0`. -/
def pyBoolInt (b : Bool) : Int := if b then 1 else 0

/-- The start-drag test, exactly as written in the motion handler:
`abs(event.pos[0] - start.x) > self._drag_delta or abs(event.pos[1] > self._drag_delta)`
— the second operand applies `abs` to the boolean comparison
`event.pos[1] > self._drag_delta`, so it tests the pointer's absolute y
coordinate against the threshold, not the y delta from the anchor.
`self._drag_delta` is 4. -/
def dragStartCond (dragDelta : Int) (start pos : Point) : Bool :=
  decide (|pos.x - start.x| > dragDelta) ||
    decide (|pyBoolInt (decide (pos.y > dragDelta))| ≠ 0)

/-- Written from the spec's words for comparison with `dragStartCond`: the
maximum of the per-axis absolute deltas from the press anchor exceeds the
threshold. -/
def specDragStartCond (dragDelta : Int) (start pos : Point) : Bool :=
  decide (max (|pos.x - start.x|) (|pos.y - start.y|) > dragDelta)

/-- The start-drag scan of the motion handler (captured control `cap`, no
active drag button): `for button in (MB_LEFT, MB_MIDDLE, MB_RIGHT)`, each
pressed button whose anchor passes `dragStartCond` becomes the drag button
and `cap` receives MOUSE_STARTDRAG; there is no `break`. Reading `start.x`
needs a `Point` entry: a `None` entry or a coordinate from the collapsed
field raises. -/
def startDragScan (st : UIState) (cap : Nat) (pos : Point) : StepOut :=
  [1, 2, 3].foldl
    (fun (o : StepOut) (button : Nat) =>
      if o.crashed then o
      else if o.st.mbuttons.getD button 0 != 0 then
        match o.st.dragPos.get button with
        | some (.pt start) =>
          if dragStartCond 4 start pos then
            { o with
              st := { o.st with dragButton := button },
              msgs := o.msgs ++ [.mouseStartDrag cap button (.pt start)] }
          else o
        | _ => { o with crashed := true }
      else o)
    { st := st, msgs := [], crashed := false }

/-- The `pg.MOUSEMOTION` branch of `process_events`: hit-test all topmost
windows keeping the last hit; without capture, handle enter/leave/move and
update the hover target; with capture, either scan for a drag start (no
active drag button yet) or, when a drag is active and the pointer is over a
control other than the source, send MOUSE_DRAGMOVE, query DRAG_ACCEPT on
the hovered control and cache the result and the receiver. -/
def mouseMotion (env : Env) (st : UIState) (pos : Point) : StepOut :=
  let hovered := hitLoop env st.controls pos none
  match st.captured with
  | none =>
    if hovered != st.hovered then
      let leaveMsgs := match st.hovered with
        | some h => [MsgCall.mouseLeave h]
        | none => []
      let enterMsgs := match hovered with
        | some h => [MsgCall.mouseEnter h]
        | none => []
      { st := { st with hovered := hovered },
        msgs := leaveMsgs ++ enterMsgs, crashed := false }
    else
      match st.hovered with
      | some h => { st := st, msgs := [MsgCall.mouseMove h], crashed := false }
      | none => { st := st, msgs := [], crashed := false }
  | some cap =>
    if st.dragButton == 0 then
      startDragScan st cap pos
    else
      match hovered with
      | some hv =>
        if hv != cap then
          match st.dragPos.get st.dragButton with
          | some start =>
            let accept := env.dragAccept hv cap
            { st := { st with
                dragAccept := accept,
                dragReceiver := if accept then some hv else none },
              msgs := [.mouseDragMove cap st.dragButton start pos],
              crashed := false }
          | none => { st := st, msgs := [], crashed := true }
        else { st := st, msgs := [], crashed := false }
      | none => { st := st, msgs := [], crashed := false }

/-- The drag-commit section of the `pg.MOUSEBUTTONUP` branch: when the
released button is the active drag button and a control is captured, send
MOUSE_STOPDRAG to it; when the cached drag-accept is true, fetch
DRAG_SENDDATA from the source, deliver DRAG_RECVDATA with that payload to
the cached receiver, and clear the drag state — `_drag_accept = False`,
`_drag_receiver = None`, `_drag_button = MB_NONE`, and the whole
`_drag_pos` field replaced by `Point(0, 0)`. A `None` receiver with the
accept flag set would raise after the DRAG_SENDDATA fetch. -/
def buttonUpDragPhase (env : Env) (st : UIState) (button : Nat) (pos : Point) :
    StepOut :=
  if st.dragButton == button then
    match st.captured with
    | some cap =>
      match st.dragPos.get st.dragButton with
      | some start =>
        let stopMsgs := [MsgCall.mouseStopDrag cap st.dragButton start pos]
        if st.dragAccept then
          match st.dragReceiver with
          | some recv =>
            { st := { st with
                dragAccept := false, dragReceiver := none,
                dragButton := 0, dragPos := .point ⟨0, 0⟩ },
              msgs := stopMsgs ++
                [.dragSendData cap, .dragRecvData recv (env.sendData cap)],
              crashed := false }
          | none =>
            { st := st, msgs := stopMsgs ++ [.dragSendData cap], crashed := true }
        else { st := st, msgs := stopMsgs, crashed := false }
      | none => { st := st, msgs := [], crashed := true }
    | none => { st := st, msgs := [], crashed := false }
  else { st := st, msgs := [], crashed := false }

/-- The post-release re-hit-test of the button-up handler: scan all topmost
windows starting from the current hover target; when the result differs,
send MOUSE_LEAVE to the old target and — exactly as in the source — send
MOUSE_ENTER to `self._hovered`, the old target; when the old target is
`None` and the scan found a control, that send raises. -/
def rehitAfterRelease (env : Env) (st : UIState) (pos : Point)
    (acc : List MsgCall) : StepOut :=
  let hovered := hitLoop env st.controls pos st.hovered
  if hovered != st.hovered then
    let leaveMsgs := match st.hovered with
      | some h => [MsgCall.mouseLeave h]
      | none => []
    match hovered with
    | some _ =>
      match st.hovered with
      | some h =>
        { st := { st with hovered := hovered },
          msgs := acc ++ leaveMsgs ++ [.mouseEnter h], crashed := false }
      | none => { st := st, msgs := acc ++ leaveMsgs, crashed := true }
    | none =>
      { st := { st with hovered := hovered },
        msgs := acc ++ leaveMsgs, crashed := false }
  else { st := st, msgs := acc, crashed := false }

/-- The primary-button section of the `pg.MOUSEBUTTONUP` branch: clear the
pressed flag; the latency test `self._press_time[MB_LEFT] - current_time < 200`
(press time minus current time, exactly as written) guards MOUSE_CLICK on
the hovered control; when a control is captured, re-hit-test it for
MOUSE_RELEASE and release capture; when the pointer is not hovering the
captured control, re-hit-test all topmost windows and update the hover
target. -/
def buttonUpLeftPhase (env : Env) (st : UIState) (button : Nat) (pos : Point)
    (currentTime : Int) : StepOut :=
  if button == 1 then
    let st1 := { st with mbuttons := st.mbuttons.set 1 0 }
    let clickMsgs :=
      if st1.pressTime.getD 1 0 - currentTime < 200 then
        match st1.hovered with
        | some h => [MsgCall.mouseClick h]
        | none => []
      else []
    match st1.captured with
    | some cap =>
      let hov := env.hitTest cap pos
      let isHovering := hov == some cap
      let st2 := { st1 with captured := none }
      let relMsgs := [MsgCall.mouseRelease cap isHovering]
      if isHovering then
        { st := st2, msgs := clickMsgs ++ relMsgs, crashed := false }
      else rehitAfterRelease env st2 pos (clickMsgs ++ relMsgs)
    | none => rehitAfterRelease env st1 pos clickMsgs
  else { st := st, msgs := [], crashed := false }

/-- The release-timestamp recording at the top of the `pg.MOUSEBUTTONUP`
branch: `if self._is_mbutton(event.button): self._release_time[event.button] = current_time`. -/
def recordRelease (st : UIState) (button : Nat) (currentTime : Int) : UIState :=
  if isMButton button then
    { st with releaseTime := st.releaseTime.set button currentTime }
  else st

/-- Sequencing of two Python statement blocks: when the first aborted with
an exception, the second never runs; otherwise the second runs on the
first's state and the notifications concatenate. -/
def stepSeq (o1 : StepOut) (k : UIState → StepOut) : StepOut :=
  if o1.crashed then o1
  else
    { st := (k o1.st).st, msgs := o1.msgs ++ (k o1.st).msgs,
      crashed := (k o1.st).crashed }

/-- The `pg.MOUSEBUTTONUP` branch: record the release timestamp for the
buttons `_is_mbutton` recognizes, run the drag-commit section, then the
primary-button section. -/
def mouseButtonUp (env : Env) (st : UIState) (button : Nat) (pos : Point)
    (currentTime : Int) : StepOut :=
  stepSeq (buttonUpDragPhase env (recordRelease st button currentTime) button pos)
    (fun s => buttonUpLeftPhase env s button pos currentTime)

/-- The activation resolution of the primary button-down when the hovered
control's topmost window `tm` exists and an active topmost exists: the 2-by-2
modal/modeless matrix on the active window's behavior flags (`MODAL = 8`,
`MODELESS = 16`). `bring_to_front` removes the window from the topmost list
and appends it. -/
def resolveActivation (env : Env) (st : UIState) (tm : Nat) :
    UIState × List MsgCall :=
  match st.active with
  | some act =>
    if act != tm then
      let modal := (env.behavior act).land 8 == 8
      let modeless := (env.behavior act).land 16 == 16
      if !modal && !modeless then
        ({ st with controls := st.controls.erase tm ++ [tm], active := some tm },
         [.deactivated act, .activated tm])
      else if modal && !modeless then (st, [])
      else if !modal && modeless then
        ({ st with controls := st.controls.erase tm ++ [tm] }, [])
      else ({ st with active := some tm }, [.deactivated act, .activated tm])
    else (st, [])
  | none => (st, [])

/-- The press-anchor/timestamp recording at the top of the
`pg.MOUSEBUTTONDOWN` branch: for the buttons `_is_mbutton` recognizes,
`self._drag_pos[event.button] = Point(*event.pos)` then
`self._press_time[event.button] = pg.time.get_ticks()`; `none` models the
anchor assignment raising. -/
def buttonDownAnchor (st : UIState) (button : Nat) (pos : Point)
    (ticks : Int) : Option UIState :=
  if isMButton button then
    match st.dragPos.set button pos with
    | some dp =>
      some { st with dragPos := dp, pressTime := st.pressTime.set button ticks }
    | none => none
  else some st

/-- `self._mbuttons[MB_LEFT] = 1`. -/
def pressLeft (st : UIState) : UIState :=
  { st with mbuttons := st.mbuttons.set 1 1 }

/-- The activation step of the primary button-down: when a control is
hovered, resolve against its topmost window, else do nothing. -/
def buttonDownActivate (env : Env) (st1 : UIState) : UIState × List MsgCall :=
  match st1.hovered with
  | some h => resolveActivation env st1 (env.topmostOf h)
  | none => (st1, [])

/-- `to_focus = self._active.selected_child if self._active else None`. -/
def focusTarget (env : Env) (st2 : UIState) : Option Nat :=
  match st2.active with
  | some act => env.selChild act
  | none => none

/-- The focus step of the primary button-down: on a focus-target change,
send DEFOCUSED to the old and FOCUSED to the new target and store it. -/
def buttonDownFocus (env : Env) (st2 : UIState) : UIState × List MsgCall :=
  if st2.focused != focusTarget env st2 then
    ({ st2 with focused := focusTarget env st2 },
      (match st2.focused with
        | some f => [MsgCall.defocusedMsg f]
        | none => []) ++
      (match focusTarget env st2 with
        | some f => [MsgCall.focusedMsg f]
        | none => []))
  else (st2, [])

/-- The capture step of the primary button-down:
`self._captured = self._hovered`, then SELECTED on the captured control and
MOUSE_PRESS on the hovered control. -/
def buttonDownCapture (st3 : UIState) : UIState × List MsgCall :=
  ({ st3 with captured := st3.hovered },
    (match st3.hovered with
      | some c => [MsgCall.selectedMsg c]
      | none => []) ++
    (match st3.hovered with
      | some h => [MsgCall.mousePress h]
      | none => []))

/-- Sequencing of two state-and-messages steps. -/
def mseq (x : UIState × List MsgCall) (k : UIState → UIState × List MsgCall) :
    UIState × List MsgCall :=
  ((k x.1).1, x.2 ++ (k x.1).2)

/-- A completed (non-raising) step as an event outcome. -/
def stepOfPair (x : UIState × List MsgCall) : StepOut :=
  { st := x.1, msgs := x.2, crashed := false }

/-- The primary-button body of the `pg.MOUSEBUTTONDOWN` branch: set the
pressed flag, then the activation, focus and capture steps in order. -/
def buttonDownLeft (env : Env) (st0 : UIState) : StepOut :=
  stepOfPair
    (mseq (mseq (buttonDownActivate env (pressLeft st0)) (buttonDownFocus env))
      buttonDownCapture)

/-- The `pg.MOUSEBUTTONDOWN` branch: record the press anchor and timestamp
for the buttons `_is_mbutton` recognizes; then, for the primary button: set
the pressed flag, resolve activation from the hovered control's topmost,
resolve the focus target from the active topmost's selected chain, emit
DEFOCUSED/FOCUSED on a focus change, capture the hovered control and send
SELECTED and MOUSE_PRESS. -/
def mouseButtonDown (env : Env) (st : UIState) (button : Nat) (pos : Point)
    (ticks : Int) : StepOut :=
  match buttonDownAnchor st button pos ticks with
  | none => { st := st, msgs := [], crashed := true }
  | some st0 =>
    if button == 1 then buttonDownLeft env st0
    else { st := st0, msgs := [], crashed := false }

/-- An environment whose controls answer every query negatively (no hit, no
drag accept, payload 0); used for concrete event traces. -/
def envPassive : Env :=
  { hitTest := fun _ _ => none
    dragAccept := fun _ _ => false
    sendData := fun _ => 0
    topmostOf := fun c => c
    behavior := fun _ => 0
    selChild := fun _ => none }

/-- The runtime state right after a primary press at time 0 over control 5,
with no capture and no drag. -/
def stLongPress : UIState :=
  { controls := [], mbuttons := [0, 1, 0, 0], pressTime := [0, 0, 0, 0]
    releaseTime := [0, 0, 0, 0]
    dragPos := .table [none, some ⟨0, 0⟩, some ⟨0, 0⟩, some ⟨0, 0⟩]
    dragButton := 0, dragAccept := false, dragReceiver := none
    captured := none, hovered := some 5, focused := none, active := none }

/-- The runtime state with control 7 captured, the primary button pressed
with anchor `(0, 10)`, and no drag active yet. -/
def stPressNoMove : UIState :=
  { controls := [], mbuttons := [0, 1, 0, 0], pressTime := [0, 0, 0, 0]
    releaseTime := [0, 0, 0, 0]
    dragPos := .table [none, some ⟨0, 10⟩, some ⟨0, 0⟩, some ⟨0, 0⟩]
    dragButton := 0, dragAccept := false, dragReceiver := none
    captured := some 7, hovered := some 7, focused := none, active := none }

/-- An environment whose controls accept drops and answer DRAG_SENDDATA
with 42. -/
def envDragEx : Env :=
  { hitTest := fun _ _ => none
    dragAccept := fun _ _ => true
    sendData := fun _ => 42
    topmostOf := fun c => c
    behavior := fun _ => 0
    selChild := fun _ => none }

/-- The runtime state in the middle of a primary-button drag from source 7
whose last DRAG_ACCEPT on receiver 8 returned true. -/
def stDragEx : UIState :=
  { controls := [], mbuttons := [0, 1, 0, 0], pressTime := [0, 0, 0, 0]
    releaseTime := [0, 0, 0, 0]
    dragPos := .table [none, some ⟨3, 3⟩, some ⟨0, 0⟩, some ⟨0, 0⟩]
    dragButton := 1, dragAccept := true, dragReceiver := some 8
    captured := some 7, hovered := some 8, focused := none, active := none }

/-- An environment where window 9 is modal (behavior bitmask 8) and every
control is its own topmost. -/
def envModalEx : Env :=
  { hitTest := fun _ _ => none
    dragAccept := fun _ _ => false
    sendData := fun _ => 0
    topmostOf := fun c => c
    behavior := fun c => if c == 9 then 8 else 0
    selChild := fun _ => none }

/-- The runtime state with modal window 9 active and the pointer over
topmost window 2. -/
def stModalEx : UIState :=
  { controls := [2, 9], mbuttons := [0, 0, 0, 0], pressTime := [0, 0, 0, 0]
    releaseTime := [0, 0, 0, 0]
    dragPos := .table [none, some ⟨0, 0⟩, some ⟨0, 0⟩, some ⟨0, 0⟩]
    dragButton := 0, dragAccept := false, dragReceiver := none
    captured := none, hovered := some 2, focused := none, active := some 9 }

/-- Written from the spec's words for comparison with `containerChildLoop`:
children failing the intersection-and-visible test "are skipped and the
render pass still completes for the remaining children". -/
def specChildLoopSkip (renderBounds : Rectangle) :
    List ChildR → List RenderAct
  | [] => []
  | c :: cs =>
    if renderBounds.intersects (c.bounds.expand c.padding) && c.visible then
      [.childDispatch c.id 0x62, .childDispatch c.id 0x63,
       .childDispatch c.id 0x64] ++ specChildLoopSkip renderBounds cs
    else specChildLoopSkip renderBounds cs

/-! ## Visibility propagation (`Control.visible`) -/

/-- A control tree carrying each control's locally stored `_visible` flag.
The Python objects hold a parent back-reference; the tree view makes the
parent chain explicit as the path from the root. -/
inductive VTree where
  | node (localVisible : Bool) (children : List VTree)

/-- The locally stored `_visible` flag of the root control. -/
def VTree.localVisible : VTree → Bool
  | .node v _ => v

/-- The child list of the root control. -/
def VTree.children : VTree → List VTree
  | .node _ cs => cs

/-- The `visible` setter: `self._visible = value` — it writes only the
control's own local flag and touches no descendant. -/
def VTree.setLocalVisible : VTree → Bool → VTree
  | .node _ cs, v => .node v cs

/-- The subtree rooted at the control reached by following child indices
along `path` (none when the path leaves the tree). -/
def VTree.nodeAt : VTree → List Nat → Option VTree
  | t, [] => some t
  | t, i :: rest =>
    match t.children.get? i with
    | some c => VTree.nodeAt c rest
    | none => none

/-- The effective `visible` property at the control reached by `path`,
unfolding the Python property: with a parent, `parent.visible and
self._visible`; the argument `pv` is the effective visibility of the root's
parent context (`true` for a registered topmost root; the topmost test and
the orphan `False` case are this same parameter at the root). -/
def VTree.effVisibleAt : Bool → VTree → List Nat → Option Bool
  | pv, t, [] => some (pv && t.localVisible)
  | pv, t, i :: rest =>
    match t.children.get? i with
    | some c => VTree.effVisibleAt (pv && t.localVisible) c rest
    | none => none

/-! ## Selected-child resolution (`Control.selected_child` / `ContainerControl.selected_child`) -/

/-- A control for the selected-child chain: a plain control carries its
behavior bitmask (`SELECTABLE = 1`); a container additionally carries its
children and its `_selected` index (a Python int, possibly out of range or
`-1`). -/
inductive Ctl where
  | base (behavior : Nat)
  | container (behavior : Nat) (children : List Ctl) (selected : Int)

/-- The `behavior` bitmask of a control. -/
def Ctl.behavior : Ctl → Nat
  | .base b => b
  | .container b _ _ => b

/-- `self.behavior & BE_SELECTABLE == BE_SELECTABLE` with `BE_SELECTABLE = 1`. -/
def Ctl.isSelectable (c : Ctl) : Bool := c.behavior.land 1 == 1

/-- `selected_child`: a plain control returns itself when selectable, else
none; a container with a valid `_selected` index recurses into that child,
and otherwise resets `_selected` to `-1` and falls back to the plain-control
test on itself (the returned container carries the reset index, as the
Python object does after the in-place `self._selected = -1`). -/
def Ctl.selectedChild : Ctl → Option Ctl
  | .base b => if b.land 1 == 1 then some (.base b) else none
  | .container b cs sel =>
    if h : cs.length ≠ 0 ∧ 0 ≤ sel ∧ sel < (cs.length : Int) then
      Ctl.selectedChild (cs.get ⟨sel.toNat, by omega⟩)
    else if b.land 1 == 1 then some (.container b cs (-1)) else none
termination_by c => sizeOf c
decreasing_by
  rename_i cs sel
  simp only [Ctl.container.sizeOf_spec]
  have hm := List.sizeOf_lt_of_mem (List.get_mem cs sel.toNat (by omega))
  omega

end Grusin

namespace Grusin

/-- C7. The claim fails on the code: `Rectangle.intersection` passes the
smaller right/bottom edges directly as the new width/height instead of
subtracting the overlap's left/top edge. At `A = (0, 0, 10, 10)` and
`B = (2, 2, 3, 3)` the rectangles intersect, the overlap region is
`(2, 2, 3, 3)`, yet the code returns `(2, 2, 5, 5)`; moreover at
`A = (0, 0, 5, 5)` and `B = (0, 0, 0, 0)` `intersects` is true while the
returned rectangle is empty, refuting the claimed iff. -/
theorem intersection_is_not_the_overlap_region :
    (Rectangle.intersects ⟨0, 0, 10, 10⟩ ⟨2, 2, 3, 3⟩ = true ∧
      Rectangle.intersection ⟨0, 0, 10, 10⟩ ⟨2, 2, 3, 3⟩ = ⟨2, 2, 5, 5⟩ ∧
      specOverlapRegion ⟨0, 0, 10, 10⟩ ⟨2, 2, 3, 3⟩ = ⟨2, 2, 3, 3⟩ ∧
      Rectangle.intersection ⟨0, 0, 10, 10⟩ ⟨2, 2, 3, 3⟩ ≠
        specOverlapRegion ⟨0, 0, 10, 10⟩ ⟨2, 2, 3, 3⟩) ∧
    (Rectangle.intersects ⟨0, 0, 5, 5⟩ ⟨0, 0, 0, 0⟩ = true ∧
      (Rectangle.intersection ⟨0, 0, 5, 5⟩ ⟨0, 0, 0, 0⟩).isEmpty = true) := by
  decide

/-- C9 counterexample. `Rectangle.__init__` stores the width argument
unclamped: constructing a rectangle with width `-5` yields a rectangle
reporting width `-5 < 0`, refuting the claim that values passed at
construction are clamped to zero. -/
theorem rectangle_init_keeps_negative_width :
    (Rectangle.init 0 0 (-5) 3).width = -5 ∧ (Rectangle.init 0 0 (-5) 3).width < 0 := by
  decide

/-- C5. Dispatching RENDER to a control whose declared render-layer set
contains both ABOVE_BACKGROUND (bit 2) and BELOW_FOREGROUND (bit 4) raises
`GrUsInRendererError` naming the offending class, whenever the intersection
of the clip area with the control's render bounds is non-empty. -/
theorem render_both_layers_raises (cls : String) (layer : RenderLayerMask)
    (clipArea renderBounds : Rectangle)
    (hAbove : layer.land 2 = 2) (hBelow : layer.land 4 = 4)
    (hNonempty : (clipArea.intersection renderBounds).isEmpty = false) :
    controlRenderMsg cls layer clipArea renderBounds =
      .error (.rendererError (renderLayerErrMsg cls)) := by
  unfold controlRenderMsg
  simp [hNonempty, hAbove, hBelow]

/-- C5 witness: a concrete layer set `{ABOVE_BACKGROUND, BELOW_FOREGROUND}`
(mask 6) with clip area equal to the render bounds `(0, 0, 10, 10)`. -/
theorem render_both_layers_raises_witness :
    (Nat.land 6 2 = 2 ∧ Nat.land 6 4 = 4 ∧
      (Rectangle.intersection ⟨0, 0, 10, 10⟩ ⟨0, 0, 10, 10⟩).isEmpty = false) ∧
    controlRenderMsg "PushButton" 6 ⟨0, 0, 10, 10⟩ ⟨0, 0, 10, 10⟩ =
      .error (.rendererError (renderLayerErrMsg "PushButton")) :=
  ⟨by decide,
    render_both_layers_raises "PushButton" 6 ⟨0, 0, 10, 10⟩ ⟨0, 0, 10, 10⟩
      (by decide) (by decide) (by decide)⟩

/-- C4. The claim fails on the code: the container's RENDER child loop has
`raise RuntimeError()` in the `else` branch of the intersects-and-visible
test, so a child failing either condition aborts the whole render pass
instead of being skipped. Concretely, with render bounds `(0, 0, 100, 100)`
and two children — child 0 visible at `(0, 0, 10, 10)` and child 1 invisible
at `(20, 20, 10, 10)` — the container raises `RuntimeError`, where the spec's
skip semantics would dispatch the three stages to child 0 only. -/
theorem container_render_raises_on_skipped_child :
    containerRenderMsg "panel" 2 ⟨0, 0, 100, 100⟩ ⟨0, 0, 100, 100⟩
      [⟨0, ⟨0, 0, 10, 10⟩, ⟨2, 2, 2, 2⟩, true⟩,
       ⟨1, ⟨20, 20, 10, 10⟩, ⟨2, 2, 2, 2⟩, false⟩] = .error .runtimeError ∧
    specChildLoopSkip ⟨0, 0, 100, 100⟩
      [⟨0, ⟨0, 0, 10, 10⟩, ⟨2, 2, 2, 2⟩, true⟩,
       ⟨1, ⟨20, 20, 10, 10⟩, ⟨2, 2, 2, 2⟩, false⟩] =
      [.childDispatch 0 0x62, .childDispatch 0 0x63, .childDispatch 0 0x64] :=
  ⟨rfl, rfl⟩

/-- Under a parent context that is not effectively visible, every control in
the subtree is effectively invisible. -/
theorem effVisibleAt_false {t : VTree} {path : List Nat} {r : Bool}
    (h : VTree.effVisibleAt false t path = some r) : r = false := by
  induction path generalizing t with
  | nil =>
    cases t with
    | node v cs =>
      simp only [VTree.effVisibleAt, VTree.localVisible, Bool.false_and] at h
      injection h with h
      exact h.symm
  | cons i rest ih =>
    cases t with
    | node v cs =>
      simp only [VTree.effVisibleAt, VTree.children, VTree.localVisible] at h
      cases hg : cs.get? i with
      | some c =>
        rw [hg] at h
        simp only [Bool.false_and] at h
        exact ih h
      | none => rw [hg] at h; cases h

/-- A control whose effective visibility at an extended path is `true` has an
effectively visible parent: effective visibility never exceeds the parent's. -/
theorem effVisibleAt_append_true {pv : Bool} {t : VTree} {path : List Nat} {i : Nat}
    (h : VTree.effVisibleAt pv t (path ++ [i]) = some true) :
    VTree.effVisibleAt pv t path = some true := by
  induction path generalizing pv t with
  | nil =>
    cases t with
    | node v cs =>
      simp only [List.nil_append, VTree.effVisibleAt, VTree.children,
        VTree.localVisible] at h ⊢
      cases hg : cs.get? i with
      | some c =>
        rw [hg] at h
        cases c with
        | node vc cc =>
          simp only [VTree.effVisibleAt, VTree.localVisible] at h
          injection h with h
          have hpv : (pv && v) = true := by
            cases pv <;> cases v <;> simp_all
          rw [hpv]
      | none => rw [hg] at h; cases h
  | cons j ps ih =>
    cases t with
    | node v cs =>
      simp only [List.cons_append, VTree.effVisibleAt, VTree.children,
        VTree.localVisible] at h ⊢
      cases hg : cs.get? j with
      | some c =>
        rw [hg] at h
        exact ih h
      | none => rw [hg] at h; cases h

/-- C6. Setting a container's local `visible` flag to false makes the
effective visibility of every strict descendant false while each
descendant's local flag (indeed, its whole subtree) is unchanged; restoring
the container's local flag restores the original tree exactly; and effective
visibility at a child never exceeds effective visibility at its parent. -/
theorem visibility_propagation (pv : Bool) (t : VTree) (path : List Nat) :
    (∀ r : Bool, path ≠ [] →
        VTree.effVisibleAt pv (t.setLocalVisible false) path = some r → r = false) ∧
    (path ≠ [] →
        VTree.nodeAt (t.setLocalVisible false) path = VTree.nodeAt t path) ∧
    (t.setLocalVisible false).setLocalVisible t.localVisible = t ∧
    (∀ i : Nat, VTree.effVisibleAt pv t (path ++ [i]) = some true →
        VTree.effVisibleAt pv t path = some true) := by
  refine ⟨?_, ?_, ?_, fun i h => effVisibleAt_append_true h⟩
  · intro r hne h
    cases path with
    | nil => exact absurd rfl hne
    | cons i rest =>
      cases t with
      | node v cs =>
        simp only [VTree.setLocalVisible, VTree.effVisibleAt, VTree.children,
          VTree.localVisible, Bool.and_false] at h
        cases hg : cs.get? i with
        | some c =>
          rw [hg] at h
          exact effVisibleAt_false h
        | none => rw [hg] at h; cases h
  · intro hne
    cases path with
    | nil => exact absurd rfl hne
    | cons i rest =>
      cases t with
      | node v cs =>
        simp only [VTree.setLocalVisible, VTree.nodeAt, VTree.children]
  · cases t with
    | node v cs => rfl

/-- C6 witness: in the two-level tree with both local flags true, clearing
the root's flag makes the child's effective visibility false, and the
monotonicity clause applied at the root is discharged concretely. -/
theorem visibility_propagation_witness :
    (VTree.effVisibleAt true
        ((VTree.node true [VTree.node true []]).setLocalVisible false) [0] ≠
      some true) ∧
    VTree.effVisibleAt true (VTree.node true [VTree.node true []]) [] = some true :=
  ⟨fun h =>
      Bool.noConfusion
        ((visibility_propagation true (VTree.node true [VTree.node true []]) [0]).1
          true (by decide) h),
    (visibility_propagation true (VTree.node true [VTree.node true []]) []).2.2.2 0
      (by decide)⟩

/-- C10. `selected_child` always resolves to either none or a control whose
behavior flags include SELECTABLE, so the focus target computed on
button-down is a selectable control or absent. -/
theorem selectedChild_selectable (c : Ctl) :
    ∀ x : Ctl, Ctl.selectedChild c = some x → Ctl.isSelectable x = true := by
  induction c using Ctl.selectedChild.induct with
  | case1 b hb =>
    intro x h
    rw [Ctl.selectedChild, if_pos hb] at h
    obtain rfl := Option.some.inj h
    exact hb
  | case2 b hb =>
    intro x h
    rw [Ctl.selectedChild, if_neg hb] at h
    exact Option.noConfusion h
  | case3 b cs sel hvalid ih =>
    intro x hx
    rw [Ctl.selectedChild, dif_pos hvalid] at hx
    exact ih x hx
  | case4 b cs sel hvalid hb =>
    intro x hx
    rw [Ctl.selectedChild, dif_neg hvalid, if_pos hb] at hx
    obtain rfl := Option.some.inj hx
    exact hb
  | case5 b cs sel hvalid hb =>
    intro x hx
    rw [Ctl.selectedChild, dif_neg hvalid, if_neg hb] at hx
    exact Option.noConfusion hx

/-- C10 witness: a non-selectable container whose valid selected index chain
ends at a selectable plain control; the resolved focus target is selectable. -/
theorem selectedChild_selectable_witness :
    Ctl.selectedChild (Ctl.container 0 [Ctl.base 1] 0) = some (Ctl.base 1) ∧
    Ctl.isSelectable (Ctl.base 1) = true :=
  ⟨by simp [Ctl.selectedChild]; decide,
    selectedChild_selectable (Ctl.container 0 [Ctl.base 1] 0) (Ctl.base 1)
      (by simp [Ctl.selectedChild]; decide)⟩

/-- Reading a `_drag_pos` entry of a four-slot table succeeds for an
in-range index. -/
theorem DragPosField.get_table_isSome (ps : List (Option Point)) (i : Nat)
    (h : i < ps.length) : ∃ a, DragPosField.get (.table ps) i = some a := by
  have hg : DragPosField.get (.table ps) i =
      match ps.get? i with
      | some (some p) => some (.pt p)
      | some none => some .null
      | none => none := rfl
  rw [hg, List.get?_eq_get h]
  cases ps.get ⟨i, h⟩ <;> exact ⟨_, rfl⟩

/-- The release-timestamp recording touches only `_release_time`. -/
theorem recordRelease_fields (st : UIState) (button : Nat) (t : Int) :
    (recordRelease st button t).dragButton = st.dragButton ∧
    (recordRelease st button t).captured = st.captured ∧
    (recordRelease st button t).dragAccept = st.dragAccept ∧
    (recordRelease st button t).dragReceiver = st.dragReceiver ∧
    (recordRelease st button t).dragPos = st.dragPos := by
  unfold recordRelease
  split <;> exact ⟨rfl, rfl, rfl, rfl, rfl⟩

/-- The post-release re-hit-test touches no drag-state field. -/
theorem rehit_st_dragButton (env : Env) (st : UIState) (pos : Point)
    (acc : List MsgCall) :
    (rehitAfterRelease env st pos acc).st.dragButton = st.dragButton := by
  simp only [rehitAfterRelease]
  (repeat' split) <;> rfl

/-- The post-release re-hit-test touches no drag-state field. -/
theorem rehit_st_dragAccept (env : Env) (st : UIState) (pos : Point)
    (acc : List MsgCall) :
    (rehitAfterRelease env st pos acc).st.dragAccept = st.dragAccept := by
  simp only [rehitAfterRelease]
  (repeat' split) <;> rfl

/-- The post-release re-hit-test touches no drag-state field. -/
theorem rehit_st_dragReceiver (env : Env) (st : UIState) (pos : Point)
    (acc : List MsgCall) :
    (rehitAfterRelease env st pos acc).st.dragReceiver = st.dragReceiver := by
  simp only [rehitAfterRelease]
  (repeat' split) <;> rfl

/-- The post-release re-hit-test touches no drag-state field. -/
theorem rehit_st_dragPos (env : Env) (st : UIState) (pos : Point)
    (acc : List MsgCall) :
    (rehitAfterRelease env st pos acc).st.dragPos = st.dragPos := by
  simp only [rehitAfterRelease]
  (repeat' split) <;> rfl

/-- The post-release re-hit-test emits only enter/leave notifications beyond
its accumulator: no drag-and-drop data calls. -/
theorem rehit_msgs_filter (env : Env) (st : UIState) (pos : Point)
    (acc : List MsgCall) (hacc : acc.filter isDragDataMsg = []) :
    (rehitAfterRelease env st pos acc).msgs.filter isDragDataMsg = [] := by
  simp only [rehitAfterRelease]
  (repeat' split) <;> (try simp only [List.filter_append, hacc, List.nil_append]) <;> rfl

/-- The primary-button section of button-up touches no drag-state field. -/
theorem leftPhase_st_dragButton (env : Env) (st : UIState) (button : Nat)
    (pos : Point) (t : Int) :
    (buttonUpLeftPhase env st button pos t).st.dragButton = st.dragButton := by
  simp only [buttonUpLeftPhase]
  (repeat' split) <;> (first | rfl | (simp only [rehit_st_dragButton]; try rfl))

/-- The primary-button section of button-up touches no drag-state field. -/
theorem leftPhase_st_dragAccept (env : Env) (st : UIState) (button : Nat)
    (pos : Point) (t : Int) :
    (buttonUpLeftPhase env st button pos t).st.dragAccept = st.dragAccept := by
  simp only [buttonUpLeftPhase]
  (repeat' split) <;> (first | rfl | (simp only [rehit_st_dragAccept]; try rfl))

/-- The primary-button section of button-up touches no drag-state field. -/
theorem leftPhase_st_dragReceiver (env : Env) (st : UIState) (button : Nat)
    (pos : Point) (t : Int) :
    (buttonUpLeftPhase env st button pos t).st.dragReceiver = st.dragReceiver := by
  simp only [buttonUpLeftPhase]
  (repeat' split) <;> (first | rfl | (simp only [rehit_st_dragReceiver]; try rfl))

/-- The primary-button section of button-up touches no drag-state field. -/
theorem leftPhase_st_dragPos (env : Env) (st : UIState) (button : Nat)
    (pos : Point) (t : Int) :
    (buttonUpLeftPhase env st button pos t).st.dragPos = st.dragPos := by
  simp only [buttonUpLeftPhase]
  (repeat' split) <;> (first | rfl | (simp only [rehit_st_dragPos]; try rfl))

/-- The primary-button section of button-up emits click/release/enter/leave
notifications only: no drag-and-drop data calls. -/
theorem leftPhase_msgs_filter (env : Env) (st : UIState) (button : Nat)
    (pos : Point) (t : Int) :
    (buttonUpLeftPhase env st button pos t).msgs.filter isDragDataMsg = [] := by
  simp only [buttonUpLeftPhase]
  (repeat' split) <;>
    (first
      | rfl
      | exact rehit_msgs_filter _ _ _ _ (by rfl))

/-- C1. On the button-up event of the active drag button, with a captured
source, the cached drag-accept true and a cached receiver, the runtime
performs exactly one DRAG_SENDDATA call on the source followed immediately
by exactly one DRAG_RECVDATA call on the receiver carrying the fetched
payload, and afterwards the drag state — active drag button, drag-accept
flag, drag receiver and drag anchor field — is fully cleared. -/
theorem drag_commit (env : Env) (st : UIState) (b : Nat) (pos : Point) (t : Int)
    (cap recv : Nat) (ps : List (Option Point))
    (hb : st.dragButton = b) (_hb0 : b ≠ 0) (hblt : b < 4)
    (hcap : st.captured = some cap) (hacc : st.dragAccept = true)
    (hrecv : st.dragReceiver = some recv)
    (hdp : st.dragPos = .table ps) (hlen : ps.length = 4) :
    (mouseButtonUp env st b pos t).msgs.filter isDragDataMsg =
      [.dragSendData cap, .dragRecvData recv (env.sendData cap)] ∧
    (mouseButtonUp env st b pos t).st.dragButton = 0 ∧
    (mouseButtonUp env st b pos t).st.dragAccept = false ∧
    (mouseButtonUp env st b pos t).st.dragReceiver = none ∧
    (mouseButtonUp env st b pos t).st.dragPos = .point ⟨0, 0⟩ := by
  obtain ⟨arg, harg⟩ := DragPosField.get_table_isSome ps b (by omega)
  obtain ⟨hr1, hr2, hr3, hr4, hr5⟩ := recordRelease_fields st b t
  rw [hb] at hr1
  rw [hcap] at hr2
  rw [hacc] at hr3
  rw [hrecv] at hr4
  rw [hdp] at hr5
  have hguard : buttonUpDragPhase env (recordRelease st b t) b pos =
      { st := { recordRelease st b t with
                  dragAccept := false,
                  dragReceiver := none, dragButton := 0, dragPos := .point ⟨0, 0⟩ },
        msgs := [.mouseStopDrag cap b arg pos, .dragSendData cap,
                 .dragRecvData recv (env.sendData cap)],
        crashed := false } := by
    unfold buttonUpDragPhase
    rw [hr1, hr2, hr3, hr4, hr5, harg]
    simp [hr1, hr2, hr3, hr4, hr5]
  have hred : mouseButtonUp env st b pos t =
      { st := (buttonUpLeftPhase env
          { recordRelease st b t with
              dragAccept := false, dragReceiver := none,
              dragButton := 0, dragPos := .point ⟨0, 0⟩ } b pos t).st,
        msgs := [.mouseStopDrag cap b arg pos, .dragSendData cap,
                 .dragRecvData recv (env.sendData cap)] ++
          (buttonUpLeftPhase env
            { recordRelease st b t with
                dragAccept := false, dragReceiver := none,
                dragButton := 0, dragPos := .point ⟨0, 0⟩ } b pos t).msgs,
        crashed := (buttonUpLeftPhase env
          { recordRelease st b t with
              dragAccept := false, dragReceiver := none,
              dragButton := 0, dragPos := .point ⟨0, 0⟩ } b pos t).crashed } := by
    unfold mouseButtonUp
    rw [hguard]
    rfl
  rw [hred]
  refine ⟨?_, ?_, ?_, ?_, ?_⟩
  · rw [List.filter_append, leftPhase_msgs_filter]
    rfl
  · rw [leftPhase_st_dragButton]
  · rw [leftPhase_st_dragAccept]
  · rw [leftPhase_st_dragReceiver]
  · rw [leftPhase_st_dragPos]

/-- C1 witness: a concrete accepted drag from source 7 to receiver 8 on the
primary button; the commit performs the two data calls and clears the drag
state. -/
theorem drag_commit_witness :
    (mouseButtonUp envDragEx stDragEx 1 ⟨50, 50⟩ 1000).msgs.filter isDragDataMsg =
      [.dragSendData 7, .dragRecvData 8 (envDragEx.sendData 7)] ∧
    (mouseButtonUp envDragEx stDragEx 1 ⟨50, 50⟩ 1000).st.dragButton = 0 ∧
    (mouseButtonUp envDragEx stDragEx 1 ⟨50, 50⟩ 1000).st.dragAccept = false ∧
    (mouseButtonUp envDragEx stDragEx 1 ⟨50, 50⟩ 1000).st.dragReceiver = none ∧
    (mouseButtonUp envDragEx stDragEx 1 ⟨50, 50⟩ 1000).st.dragPos = .point ⟨0, 0⟩ :=
  drag_commit envDragEx stDragEx 1 ⟨50, 50⟩ 1000 7 8
    [none, some ⟨3, 3⟩, some ⟨0, 0⟩, some ⟨0, 0⟩]
    rfl (by decide) (by decide) rfl rfl rfl rfl rfl

/-- The activation matrix branch for a modal, non-modeless active window:
no reordering, no activation change, no messages. -/
theorem resolveActivation_modal (env : Env) (st : UIState) (tm a : Nat)
    (hact : st.active = some a) (hne : a ≠ tm)
    (hmodal : (env.behavior a).land 8 = 8)
    (hmodeless : (env.behavior a).land 16 ≠ 16) :
    resolveActivation env st tm = (st, []) := by
  unfold resolveActivation
  rw [hact]
  have hm1 : ((env.behavior a).land 8 == 8) = true := by simp [hmodal]
  have hm2 : ((env.behavior a).land 16 == 16) = false := by simp [hmodeless]
  simp [hne, hm1, hm2]

/-- The focus step changes neither the active window nor the z-order. -/
theorem focus_active (env : Env) (st2 : UIState) :
    (buttonDownFocus env st2).1.active = st2.active := by
  unfold buttonDownFocus
  (repeat' split) <;> rfl

/-- The focus step changes neither the active window nor the z-order. -/
theorem focus_controls (env : Env) (st2 : UIState) :
    (buttonDownFocus env st2).1.controls = st2.controls := by
  unfold buttonDownFocus
  (repeat' split) <;> rfl

/-- The focus step emits only DEFOCUSED/FOCUSED notifications. -/
theorem focus_filter (env : Env) (st2 : UIState) :
    (buttonDownFocus env st2).2.filter isActivationMsg = [] := by
  unfold buttonDownFocus
  (repeat' split) <;> rfl

/-- The capture step changes neither the active window nor the z-order. -/
theorem capture_active (st3 : UIState) :
    (buttonDownCapture st3).1.active = st3.active := rfl

/-- The capture step changes neither the active window nor the z-order. -/
theorem capture_controls (st3 : UIState) :
    (buttonDownCapture st3).1.controls = st3.controls := rfl

/-- The capture step emits only SELECTED/MOUSE_PRESS notifications. -/
theorem capture_filter (st3 : UIState) :
    (buttonDownCapture st3).2.filter isActivationMsg = [] := by
  unfold buttonDownCapture
  (repeat' split) <;> rfl

/-- C3. On a primary button-down over a control whose topmost window differs
from the active topmost, when the active topmost is MODAL (bit 8) and not
MODELESS (bit 16), the activation change is refused entirely: the active
topmost is unchanged, the topmost z-order list is not reordered, no
DEACTIVATED or ACTIVATED message is emitted, and the handler completes
normally. -/
theorem modal_refuses_activation (env : Env) (st : UIState) (pos : Point)
    (ticks : Int) (h a : Nat) (ps : List (Option Point))
    (hhov : st.hovered = some h) (hact : st.active = some a)
    (htm : a ≠ env.topmostOf h)
    (hmodal : (env.behavior a).land 8 = 8)
    (hmodeless : (env.behavior a).land 16 ≠ 16)
    (hdp : st.dragPos = .table ps) (hlen : 1 < ps.length) :
    (mouseButtonDown env st 1 pos ticks).st.active = st.active ∧
    (mouseButtonDown env st 1 pos ticks).st.controls = st.controls ∧
    (mouseButtonDown env st 1 pos ticks).msgs.filter isActivationMsg = [] ∧
    (mouseButtonDown env st 1 pos ticks).crashed = false := by
  have hanchor : buttonDownAnchor st 1 pos ticks =
      some { st with
              dragPos := .table (ps.set 1 (some pos)),
              pressTime := st.pressTime.set 1 ticks } := by
    unfold buttonDownAnchor
    rw [hdp]
    simp [isMButton, DragPosField.set, hlen]
  have hmbd : mouseButtonDown env st 1 pos ticks =
      buttonDownLeft env
        { st with
            dragPos := .table (ps.set 1 (some pos)),
            pressTime := st.pressTime.set 1 ticks } := by
    unfold mouseButtonDown
    rw [hanchor]
    rfl
  set st0 : UIState :=
    { st with
        dragPos := .table (ps.set 1 (some pos)),
        pressTime := st.pressTime.set 1 ticks } with hst0
  have hactivate : buttonDownActivate env (pressLeft st0) = (pressLeft st0, []) := by
    unfold buttonDownActivate
    have hh : (pressLeft st0).hovered = some h := hhov
    rw [hh]
    exact resolveActivation_modal env (pressLeft st0) (env.topmostOf h) a
      hact htm hmodal hmodeless
  have hleft : buttonDownLeft env st0 =
      stepOfPair
        (mseq (mseq (pressLeft st0, ([] : List MsgCall)) (buttonDownFocus env))
          buttonDownCapture) := by
    unfold buttonDownLeft
    rw [hactivate]
  rw [hmbd, hleft]
  refine ⟨?_, ?_, ?_, rfl⟩
  · show (buttonDownCapture (buttonDownFocus env (pressLeft st0)).1).1.active =
      st.active
    rw [capture_active, focus_active]
    exact hact.trans hact.symm
  · show (buttonDownCapture (buttonDownFocus env (pressLeft st0)).1).1.controls =
      st.controls
    rw [capture_controls, focus_controls]
    rfl
  · show (([] ++ (buttonDownFocus env (pressLeft st0)).2) ++
      (buttonDownCapture (buttonDownFocus env (pressLeft st0)).1).2).filter
        isActivationMsg = []
    rw [List.filter_append, List.filter_append, focus_filter, capture_filter]
    rfl

/-- C3 witness: the pointer over topmost window 2 while modal window 9 is
active; the press refuses the activation change. -/
theorem modal_refuses_activation_witness :
    (mouseButtonDown envModalEx stModalEx 1 ⟨5, 5⟩ 0).st.active =
      stModalEx.active ∧
    (mouseButtonDown envModalEx stModalEx 1 ⟨5, 5⟩ 0).st.controls =
      stModalEx.controls ∧
    (mouseButtonDown envModalEx stModalEx 1 ⟨5, 5⟩ 0).msgs.filter
      isActivationMsg = [] ∧
    (mouseButtonDown envModalEx stModalEx 1 ⟨5, 5⟩ 0).crashed = false :=
  modal_refuses_activation envModalEx stModalEx ⟨5, 5⟩ 0 2 9
    [none, some ⟨0, 0⟩, some ⟨0, 0⟩, some ⟨0, 0⟩]
    rfl rfl (by decide) (by decide) (by decide) rfl (by decide)

/-- C8. The claim fails on the code: the start-drag test is
`abs(event.pos[0] - start.x) > self._drag_delta or abs(event.pos[1] > self._drag_delta)`,
whose second operand applies `abs` to a boolean comparison and therefore
tests the pointer's absolute y coordinate rather than the y delta from the
press anchor. With anchor `(0, 10)` and the pointer still at `(0, 10)` (zero
movement on both axes), the motion handler starts a drag on button 1 and
sends MOUSE_STARTDRAG to the captured control, while the spec's
max-of-per-axis-deltas test is below the threshold. -/
theorem drag_starts_without_movement :
    (mouseMotion envPassive stPressNoMove ⟨0, 10⟩).msgs =
      [.mouseStartDrag 7 1 (.pt ⟨0, 10⟩)] ∧
    (mouseMotion envPassive stPressNoMove ⟨0, 10⟩).st.dragButton = 1 ∧
    specDragStartCond 4 ⟨0, 10⟩ ⟨0, 10⟩ = false := by
  refine ⟨?_, ?_, ?_⟩
  · rfl
  · rfl
  · decide

/-- C2. The claim fails on the code: the latency test is
`self._press_time[MB_LEFT] - current_time < 200`, press time minus current
time, which is nonpositive for any release after the press, so MOUSE_CLICK
fires regardless of how long the button was held. Concretely, a press at
time 0 released at time 100000 (a 100-second hold, far above the 200 ms
threshold) still emits MOUSE_CLICK on the hovered control. -/
theorem click_fires_after_long_hold :
    (mouseButtonUp envPassive stLongPress 1 ⟨300, 300⟩ 100000).msgs =
      [MsgCall.mouseClick 5] ∧
    100000 - stLongPress.pressTime.getD 1 0 ≥ 200 := by
  refine ⟨?_, ?_⟩
  · rfl
  · decide

/-- C9 (amended). Writes through the `width`/`height` setters are clamped to
zero, so a setter write never leaves a negative width or height; the
constructor, by contrast, stores the given values unchanged. -/
theorem rectangle_setters_clamp_construction_does_not :
    (∀ (r : Rectangle) (v : Int),
        0 ≤ (r.setWidth v).width ∧ 0 ≤ (r.setHeight v).height) ∧
    (∀ l t w h : Int,
        (Rectangle.init l t w h).width = w ∧ (Rectangle.init l t w h).height = h) := by
  refine ⟨fun r v => ⟨le_max_left 0 v, le_max_left 0 v⟩, fun l t w h => ⟨rfl, rfl⟩⟩

end Grusin
